import Mathlib

/-
Verification development for the module factory in src/library/src/factory.js.

The file shallowly embeds the parts of factory.js that the specification
talks about: the four-way field merger (merge, lines 205-253), the
validation bookkeeping produced by preperValidation (lines 255-278 and
310-317), the liveness probe (checkModule, lines 367-383), and the
register/unregister lifecycle hooks (page.preFetch lines 407-440 and
page.destroyed lines 508-519), plus the generated action-naming rule of
page.setup (lines 601-617).
-/

/-! ## Field merger (factory.js lines 205-253)

A section source in JavaScript is either a plain object or a zero-argument
factory function producing one.  Objects are modelled as association lists
from string keys to values of an arbitrary type; the merger never inspects
the values, so the embedding is polymorphic in them. -/

/-- Fields of a JavaScript object, in insertion order. -/
abbrev Fields (α : Type) := List (String × α)

/-- One section source: a plain mapping, or a zero-argument factory whose
invocation yields the given mapping (the JS code detects the factory case
by the truthiness of the `.call` property). -/
inductive Source (α : Type) where
  | plain (f : Fields α)
  | factory (f : Fields α)
deriving DecidableEq, Repr

/-- Result of the merger.  The JS function returns, depending on the branch
taken: `undefined` (`user` absent everywhere), one of the input sources
unchanged, a freshly built plain object, or a closure
`function () { return JSON.parse(JSON.stringify(__merged)) }` which on every
call produces a fresh deep copy of the merged fields.  The four
constructors record which of those four shapes was returned. -/
inductive MergedResult (α : Type) where
  | undef
  | source (s : Source α)
  | plain (f : Fields α)
  | copyFactory (f : Fields α)
deriving DecidableEq, Repr

/-- First value bound to a key, as JavaScript property lookup sees it. -/
def getField {α : Type} (k : String) : Fields α → Option α
  | [] => none
  | (k', v) :: rest => if k' = k then some v else getField k rest

/-- Whether an object has a key. -/
def hasKey {α : Type} (k : String) (f : Fields α) : Bool :=
  (getField k f).isSome

/-- JavaScript object spread `\x7b ...base, ...ext \x7d`: keys of `base` keep
their position but take the value from `ext` when `ext` also has the key;
keys only in `ext` follow in their order. -/
def spreadFields {α : Type} (base ext : Fields α) : Fields α :=
  base.map (fun kv => (kv.1, (getField kv.1 ext).getD kv.2))
    ++ ext.filter (fun kv => !hasKey kv.1 base)

/-- Materialize a source: `x.call ? x() : x` in the JS code. -/
def materialize {α : Type} : Source α → Fields α
  | .plain f => f
  | .factory f => f

/-- Whether a source is a factory (`x.call` truthy in the JS code). -/
def isFn {α : Type} : Source α → Bool
  | .plain _ => false
  | .factory _ => true

/-- Fold one optional source into the accumulated (merged fields, isFunc)
pair, mirroring one `if` block of the merging branch:
`isFunc = isFunc || x.call; merged = x.call ? \x7b...merged, ...x()\x7d : \x7b...merged, ...x\x7d`. -/
def mergeStep {α : Type} (acc : Fields α × Bool) : Option (Source α) → Fields α × Bool
  | some s => (spreadFields acc.1 (materialize s), acc.2 || isFn s)
  | none => acc

/-- Embedding of `merge` (factory.js lines 205-253).  The arguments are the
four section sources already looked up under the section name:
`model[name]`, `collections[name]`, `complexTypes[name]`, and `user`.
Note that the `conditions` presence count in the source enumerates only
`model && model[name]`, `collections && collections[name]` and `!!user`;
`complexTypes` is absent from that list, although the merging branch and
the trailing else-if chain both handle it. -/
def merge {α : Type} (model collections complexTypes user : Option (Source α)) :
    MergedResult α :=
  let conditions : Nat :=
    (if model.isSome then 1 else 0) + (if collections.isSome then 1 else 0) +
      (if user.isSome then 1 else 0)
  if conditions > 1 then
    let a1 := mergeStep (([] : Fields α), false) user
    let a2 := mergeStep a1 model
    let a3 := mergeStep a2 collections
    let a4 := mergeStep a3 complexTypes
    if a4.2 then MergedResult.copyFactory a4.1 else MergedResult.plain a4.1
  else
    match model with
    | some s => MergedResult.source s
    | none =>
      match collections with
      | some s => MergedResult.source s
      | none =>
        match complexTypes with
        | some s => MergedResult.source s
        | none =>
          match user with
          | some s => MergedResult.source s
          | none => MergedResult.undef

/-- Number of present sources among all four, the count the specification
speaks about when it says how many sources are present. -/
def presentCount {α : Type} (model collections complexTypes user : Option (Source α)) :
    Nat :=
  (if model.isSome then 1 else 0) + (if collections.isSome then 1 else 0) +
    (if complexTypes.isSome then 1 else 0) + (if user.isSome then 1 else 0)

/-- Whether a merge result is a factory value (a source factory returned
unchanged, or the deep-copying closure built by the merging branch). -/
def resultIsFactory {α : Type} : MergedResult α → Bool
  | .source (.factory _) => true
  | .copyFactory _ => true
  | _ => false

/-! ## Module lifecycle (factory.js lines 280-281, 310-317, 364-519)

The lifecycle claims only observe the two hidden bookkeeping fields that
preperValidation injects into every module built by `store`: the validation
field "@@" (default 0) and the fetch flag "@tmu_fetch" (default false).
The external Vuex store is modelled as the registry slot under the single
fixed module name the page is bound to: either empty or holding the
registered module definition together with its current state.  Mutations
committed through the namespaced path run the handler installed by the
registered definition. -/

/-- State of the registered module instance restricted to the two hidden
bookkeeping fields. -/
structure ModState where
  validation : Int
  fetched : Bool
deriving DecidableEq, Repr

/-- A module definition as the lifecycle code sees it: the optional "@@"
mutation handler (`storeModule.mutations[validationField]`, installed into
`store._mutations` under the namespaced path at registration), and the
initial module state produced at registration time. -/
structure StoreModuleDef where
  valMutation : Option (ModState → Int → ModState)
  initState : ModState

/-- The external store, restricted to the single module name the page is
bound to: `registered = some (d, ms)` means a module with definition `d`
and current state `ms` is registered under that name. -/
structure VStore where
  registered : Option (StoreModuleDef × ModState)

/-- Store operations the lifecycle hooks perform, in execution order. -/
inductive StoreEvent where
  | commitValidation (token : Int)
  | commitFetched (value : Bool)
  | registerModule
  | unregisterModule
  | dispatchInit
deriving DecidableEq, Repr

/-- Outcome of `checkModule`: which of the two callbacks was invoked, or
neither (the outer guard on `storeModule.mutations[validationField]` was
falsy and the function fell through without calling either). -/
inductive ProbeOutcome where
  | success
  | failure
  | noProbe
deriving DecidableEq, Repr

/-- What the caller of a page lifecycle hook receives: a promise that
resolves (`promise true`) or rejects (`promise false`), or `undefined`
because the hook body does not return its promise chain. -/
inductive HookRet where
  | promise (resolved : Bool)
  | undef
deriving DecidableEq, Repr

/-- The validation mutation generated by preperValidation (factory.js
lines 258-262): `function (state, value) \x7b state[field] = value \x7d` for the
field "@@". -/
def stdValMutation : ModState → Int → ModState :=
  fun ms v => ⟨v, ms.fetched⟩

/-- A module definition as produced by `store` for the bookkeeping fields:
preperValidation installs the direct-assignment "@@" mutation and defaults
the state to `\x7b "@@": 0, "@tmu_fetch": false \x7d` (factory.js lines 310-317). -/
def stdModule : StoreModuleDef :=
  ⟨some stdValMutation, ⟨0, false⟩⟩

/-- A module definition whose mutations lack the validation field "@@". -/
def noValModule : StoreModuleDef :=
  ⟨none, ⟨0, false⟩⟩

/-- The external store operation `registerModule(moduleName, storeModule)`:
the slot now holds the definition with its freshly produced initial state. -/
def registerModule (d : StoreModuleDef) : VStore :=
  ⟨some (d, d.initState)⟩

/-- The external store operation `unregisterModule(moduleName)`. -/
def unregisterModule (_st : VStore) : VStore :=
  ⟨none⟩

/-- Commit of the fetch flag mutation through the namespaced path; a commit
against an unregistered module is a no-op. -/
def commitFetched (st : VStore) (b : Bool) : VStore :=
  match st.registered with
  | none => st
  | some (d, ms) => ⟨some (d, ⟨ms.validation, b⟩)⟩

/-- Embedding of `checkModule` (factory.js lines 367-383).  `comb` stands
for the fresh token `uuid.comb()`.  Returns the store after the probe, the
callback that was invoked, and the store operations performed.  The branch
structure mirrors the source: outer guard on
`storeModule.mutations[validationField]`; inner guard on
`store.state[moduleName] && store._mutations[mutationName]`; then commit of
the token followed by the immediate read-back and the equality test. -/
def checkModule (pm : StoreModuleDef) (st : VStore) (comb : Int) :
    VStore × ProbeOutcome × List StoreEvent :=
  match pm.valMutation with
  | none => (st, ProbeOutcome.noProbe, [])
  | some _ =>
    match st.registered with
    | none => (st, ProbeOutcome.failure, [])
    | some (d, ms) =>
      match d.valMutation with
      | none => (st, ProbeOutcome.failure, [])
      | some mu =>
        (⟨some (d, mu ms comb)⟩,
          if (mu ms comb).validation = comb then ProbeOutcome.success
          else ProbeOutcome.failure,
          [StoreEvent.commitValidation comb])

/-- Result of one run of the `page.preFetch` hook. -/
structure PreFetchRun where
  store : VStore
  events : List StoreEvent
  ret : HookRet

/-- Embedding of `page.preFetch` (factory.js lines 407-440).  In order:
run `checkModule` with a success callback that unregisters the module;
unconditionally `registerModule(moduleName, storeModule)`; read the fetch
flag of the fresh state (a boolean, so `fetched.timeout` is undefined and
no `clearTimeout` happens); dispatch `initialize`, whose resolution is the
`initOk` parameter; when it resolves, the continuation commits the fetch
flag to true, and when it rejects, the continuation never runs.  The hook
body does not return the promise chain, so the caller receives
`undefined`. -/
def preFetch (pm : StoreModuleDef) (st : VStore) (comb : Int) (initOk : Bool) :
    PreFetchRun :=
  let r1 := checkModule pm st comb
  let ev2 : List StoreEvent :=
    if r1.2.1 = ProbeOutcome.success then [StoreEvent.unregisterModule] else []
  let _st2 : VStore :=
    if r1.2.1 = ProbeOutcome.success then unregisterModule r1.1 else r1.1
  let st3 := registerModule pm
  let fin :=
    if initOk then
      (commitFetched st3 true,
        [StoreEvent.dispatchInit, StoreEvent.commitFetched true])
    else (st3, [StoreEvent.dispatchInit])
  { store := fin.1
    events := r1.2.2 ++ ev2 ++ [StoreEvent.registerModule] ++ fin.2
    ret := HookRet.undef }

/-- Embedding of `page.destroyed` (factory.js lines 508-519): run
`checkModule` with a success callback that unregisters the module; no
failure callback is passed, so on failure nothing further happens. -/
def destroyed (pm : StoreModuleDef) (st : VStore) (comb : Int) :
    VStore × List StoreEvent :=
  let r1 := checkModule pm st comb
  if r1.2.1 = ProbeOutcome.success then
    (unregisterModule r1.1, r1.2.2 ++ [StoreEvent.unregisterModule])
  else (r1.1, r1.2.2)

/-! ## Generated action names (factory.js lines 601-617)

The casing helper `getCases` lives in src/library/src/_common, which is not
under src/; only factory.js is.  Its pascal-casing is therefore modelled
from the specification. -/

/-- Modelled from the spec: the `pascal` field of `getCases` from
src/library/src/_common (missing from src/).  Section 4.2 of the
specification says the `\x7bSingle\x7d`/`\x7bProperty\x7d` placeholders use PascalCase
derived from the identifier strings of the descriptor; for a single-word
identifier that is the word with its first letter upper-cased. -/
def pascalCase (s : String) : String :=
  match s.data with
  | [] => ""
  | c :: rest => String.mk (c.toUpper :: rest)

/-- Truthiness of `s.match(/^[aeiou].*\x2fi)`: the string starts with a vowel,
case-insensitively. -/
def startsWithVowel (s : String) : Bool :=
  match s.data with
  | [] => false
  | c :: _ => c.toLower ∈ ['a', 'e', 'i', 'o', 'u']

/-- The conjunction chosen at factory.js line 605:
`single.pascal.match(/^[aeiou].*\x2fi) ? "An" : "A"`. -/
def indefArticle (singlePascal : String) : String :=
  if startsWithVowel singlePascal then "An" else "A"

/-- The generated per-property action name built at factory.js line 606:
`set${name.pascal}Of${conjunction}${single.pascal}`. -/
def setPropertyActionName (property single : String) : String :=
  "set" ++ pascalCase property ++ "Of" ++ indefArticle (pascalCase single)
    ++ pascalCase single

/-! ## Helper lemmas -/

/-- When the page module definition has no "@@" mutation, checkModule is
inert: no commit, no callback, store untouched. -/
theorem checkModule_noVal (pm : StoreModuleDef) (st : VStore) (comb : Int)
    (h : pm.valMutation = none) :
    checkModule pm st comb = (st, ProbeOutcome.noProbe, []) := by
  simp [checkModule, h]

/-- The full probe run: page module has the "@@" mutation, a module is
registered and its namespaced "@@" handler is installed.  The token is
committed through the handler and the outcome is decided by comparing the
read-back value with the token. -/
theorem checkModule_run (pm : StoreModuleDef) (st : VStore) (comb : Int)
    (d : StoreModuleDef) (ms : ModState) (mu : ModState → Int → ModState)
    (hpm : pm.valMutation.isSome = true)
    (hreg : st.registered = some (d, ms)) (hmut : d.valMutation = some mu) :
    checkModule pm st comb
      = (⟨some (d, mu ms comb)⟩,
          (if (mu ms comb).validation = comb then ProbeOutcome.success
            else ProbeOutcome.failure),
          [StoreEvent.commitValidation comb]) := by
  obtain ⟨x, hx⟩ := Option.isSome_iff_exists.mp hpm
  simp [checkModule, hx, hreg, hmut]

/-- Probe with no module registered: the failure callback fires and the
store is untouched. -/
theorem checkModule_absent (pm : StoreModuleDef) (st : VStore) (comb : Int)
    (hpm : pm.valMutation.isSome = true) (hreg : st.registered = none) :
    checkModule pm st comb = (st, ProbeOutcome.failure, []) := by
  obtain ⟨x, hx⟩ := Option.isSome_iff_exists.mp hpm
  simp [checkModule, hx, hreg]

/-- Probe with a registered module that lacks the namespaced "@@" handler:
the failure callback fires and the store is untouched. -/
theorem checkModule_noHandler (pm : StoreModuleDef) (st : VStore) (comb : Int)
    (d : StoreModuleDef) (ms : ModState)
    (hpm : pm.valMutation.isSome = true)
    (hreg : st.registered = some (d, ms)) (hmut : d.valMutation = none) :
    checkModule pm st comb = (st, ProbeOutcome.failure, []) := by
  obtain ⟨x, hx⟩ := Option.isSome_iff_exists.mp hpm
  simp [checkModule, hx, hreg, hmut]

/-- The probe performs at most the one token commit. -/
theorem checkModule_events (pm : StoreModuleDef) (st : VStore) (comb : Int) :
    (checkModule pm st comb).2.2 = [] ∨
      (checkModule pm st comb).2.2 = [StoreEvent.commitValidation comb] := by
  rcases hpm : pm.valMutation with _ | mu0
  · exact Or.inl (by simp [checkModule_noVal pm st comb hpm])
  · rcases hr : st.registered with _ | ⟨d, ms⟩
    · exact Or.inl (by simp [checkModule_absent pm st comb (by simp [hpm]) hr])
    · rcases hm : d.valMutation with _ | mu
      · exact Or.inl
          (by simp [checkModule_noHandler pm st comb d ms (by simp [hpm]) hr hm])
      · exact Or.inr
          (by simp [checkModule_run pm st comb d ms mu (by simp [hpm]) hr hm])

/-- On probe success the commit event was performed. -/
theorem checkModule_success_events (pm : StoreModuleDef) (st : VStore) (comb : Int)
    (h : (checkModule pm st comb).2.1 = ProbeOutcome.success) :
    (checkModule pm st comb).2.2 = [StoreEvent.commitValidation comb] := by
  rcases hpm : pm.valMutation with _ | mu0
  · simp [checkModule_noVal pm st comb hpm] at h
  · rcases hr : st.registered with _ | ⟨d, ms⟩
    · simp [checkModule_absent pm st comb (by simp [hpm]) hr] at h
    · rcases hm : d.valMutation with _ | mu
      · simp [checkModule_noHandler pm st comb d ms (by simp [hpm]) hr hm] at h
      · simp [checkModule_run pm st comb d ms mu (by simp [hpm]) hr hm]

/-- The probe never registers or unregisters anything: the registered
definition and the occupancy of the registry slot are preserved. -/
theorem checkModule_preserves_registration (pm : StoreModuleDef) (st : VStore)
    (comb : Int) :
    (checkModule pm st comb).1.registered.map Prod.fst = st.registered.map Prod.fst
    ∧ (checkModule pm st comb).1.registered.isSome = st.registered.isSome := by
  rcases hpm : pm.valMutation with _ | mu0
  · simp [checkModule_noVal pm st comb hpm]
  · rcases hr : st.registered with _ | ⟨d, ms⟩
    · simp [checkModule_absent pm st comb (by simp [hpm]) hr, hr]
    · rcases hm : d.valMutation with _ | mu
      · simp [checkModule_noHandler pm st comb d ms (by simp [hpm]) hr hm, hr]
      · simp [checkModule_run pm st comb d ms mu (by simp [hpm]) hr hm, hr]

/-! ## Claims about the field merger -/

/-- C1: the claim says that whenever more than one of the four sources
(user, model, collections, complexTypes) is present, `merge` builds one
plain mapping with precedence user, model, collections, complexTypes,
later present sources overwriting same-named keys — including for the pair
consisting of user and complexTypes.  The first conjunct checks the
worked example of the claim (user, model, collections all present).  The
remaining conjuncts evaluate the code at the failing input: with only
user = \x7ba:1, b:1\x7d and complexTypes = \x7ba:9\x7d present, the presence count of
the source (which omits complexTypes) is 1, so no merge happens and the
complexTypes mapping is returned unchanged — the key b contributed by user
is dropped, although the claim requires the result to map b. -/
theorem merge_complexTypes_pair_not_merged :
    (merge (some (Source.plain [("a", (2 : Int)), ("b", 2)]))
        (some (Source.plain [("a", 3), ("c", 3)])) none
        (some (Source.plain [("a", 1)]))
      = MergedResult.plain [("a", 3), ("b", 2), ("c", 3)])
    ∧ (merge (α := Int) none none (some (Source.plain [("a", 9)]))
        (some (Source.plain [("a", 1), ("b", 1)]))
      = MergedResult.source (Source.plain [("a", 9)]))
    ∧ getField "b" [("a", (9 : Int))] = none := by
  exact ⟨by decide, by decide, by decide⟩

/-- C2: with at most one of the four sources present, `merge` is the
identity: no source at all returns user unchanged (undefined), and a
single present source is returned unchanged, factory or plain. -/
theorem merge_single_source_identity {α : Type}
    (m c ct u : Option (Source α)) (h : presentCount m c ct u ≤ 1) :
    (m = none → c = none → ct = none → u = none →
      merge m c ct u = MergedResult.undef)
    ∧ (∀ s, m = some s → merge m c ct u = MergedResult.source s)
    ∧ (∀ s, c = some s → merge m c ct u = MergedResult.source s)
    ∧ (∀ s, ct = some s → merge m c ct u = MergedResult.source s)
    ∧ (∀ s, u = some s → merge m c ct u = MergedResult.source s) := by
  rcases m with _ | ms <;> rcases c with _ | cs <;> rcases ct with _ | cts <;>
      rcases u with _ | us <;>
    simp [presentCount] at h <;>
    exact ⟨fun h1 h2 h3 h4 => by cases h1 <;> cases h2 <;> cases h3 <;> cases h4 <;> rfl,
      fun s hs => by cases hs <;> rfl, fun s hs => by cases hs <;> rfl,
      fun s hs => by cases hs <;> rfl, fun s hs => by cases hs <;> rfl⟩

/-- C2 witness: a lone complexTypes factory source is returned unchanged,
still a factory. -/
theorem merge_single_source_identity_witness :
    presentCount (α := Int) none none (some (Source.factory [("a", 9)])) none ≤ 1
    ∧ merge (α := Int) none none (some (Source.factory [("a", 9)])) none
      = MergedResult.source (Source.factory [("a", 9)]) :=
  ⟨by decide,
    (merge_single_source_identity none none (some (Source.factory [("a", 9)]))
        none (by decide)).2.2.2.1 (Source.factory [("a", 9)]) rfl⟩

/-- C3: the claim says that with two or more present sources of which at
least one is a factory, the result is a factory producing fresh deep
copies of the merged mapping.  Evaluation at a failing input: model (a
plain mapping) and complexTypes (a factory) are both present, but since
the presence count of the source omits complexTypes it is 1, so the else
chain returns the model mapping unchanged — a plain object, not a
factory, and without the keys contributed by the complexTypes factory. -/
theorem merge_factory_source_lost :
    (merge (α := Int) (some (Source.plain [("m", 2)])) none
        (some (Source.factory [("a", 9)])) none
      = MergedResult.source (Source.plain [("m", 2)]))
    ∧ resultIsFactory (merge (α := Int) (some (Source.plain [("m", 2)])) none
        (some (Source.factory [("a", 9)])) none) = false := by
  exact ⟨by decide, by decide⟩

/-! ## Claims about the liveness probe and lifecycle hooks -/

/-- C4: when the page module definition carries the validation mutation,
the probe behaves as claimed: with the target module registered and its
namespaced validation handler installed, the fresh token is committed
through that handler and the validation field is read back immediately,
and the success callback fires exactly when the read-back value equals the
just-written token; with the module absent or the handler missing, the
failure callback fires (and the store is untouched). -/
theorem checkModule_probe_spec (pm : StoreModuleDef) (st : VStore) (comb : Int)
    (hpm : pm.valMutation.isSome = true) :
    (∀ d ms mu, st.registered = some (d, ms) → d.valMutation = some mu →
      checkModule pm st comb
        = (⟨some (d, mu ms comb)⟩,
            (if (mu ms comb).validation = comb then ProbeOutcome.success
              else ProbeOutcome.failure),
            [StoreEvent.commitValidation comb]))
    ∧ (st.registered = none →
        checkModule pm st comb = (st, ProbeOutcome.failure, []))
    ∧ (∀ d ms, st.registered = some (d, ms) → d.valMutation = none →
        checkModule pm st comb = (st, ProbeOutcome.failure, [])) :=
  ⟨fun d ms mu hreg hmut => checkModule_run pm st comb d ms mu hpm hreg hmut,
    fun hreg => checkModule_absent pm st comb hpm hreg,
    fun d ms hreg hmut => checkModule_noHandler pm st comb d ms hpm hreg hmut⟩

/-- C4 witness: a freshly registered standard module holds validation 7;
probing with token 5 commits 5, reads 5 back and succeeds. -/
theorem checkModule_probe_spec_witness :
    checkModule stdModule ⟨some (stdModule, ⟨7, false⟩)⟩ 5
      = (⟨some (stdModule, ⟨5, false⟩)⟩, ProbeOutcome.success,
          [StoreEvent.commitValidation 5]) := by
  have h := (checkModule_probe_spec stdModule ⟨some (stdModule, ⟨7, false⟩)⟩ 5
      rfl).1 stdModule ⟨7, false⟩ stdValMutation rfl rfl
  simpa [stdValMutation] using h

/-- C8: on unmount the probe is re-run; the unregister call happens exactly
on probe success.  On success the registry ends empty and the trace is the
token commit followed by the unregister; on anything but success no
unregister call is made and the registered module (its definition and its
presence) is left as it was. -/
theorem destroyed_unregisters_iff_probe_success (pm : StoreModuleDef)
    (st : VStore) (comb : Int) ( _hpm : pm.valMutation.isSome = true) :
    ((checkModule pm st comb).2.1 = ProbeOutcome.success →
      (destroyed pm st comb).1.registered = none
      ∧ (destroyed pm st comb).2
        = [StoreEvent.commitValidation comb, StoreEvent.unregisterModule])
    ∧ ((checkModule pm st comb).2.1 ≠ ProbeOutcome.success →
      StoreEvent.unregisterModule ∉ (destroyed pm st comb).2
      ∧ (destroyed pm st comb).1.registered.map Prod.fst
        = st.registered.map Prod.fst
      ∧ (destroyed pm st comb).1.registered.isSome = st.registered.isSome) := by
  constructor
  · intro h
    have hev := checkModule_success_events pm st comb h
    constructor
    · simp [destroyed, h, unregisterModule]
    · simp [destroyed, h, hev]
  · intro h
    have hpres := checkModule_preserves_registration pm st comb
    have hev := checkModule_events pm st comb
    refine ⟨?_, ?_, ?_⟩
    · rcases hev with hev | hev <;> simp [destroyed, h, hev]
    · simp [destroyed, h, hpres.1]
    · simp [destroyed, h, hpres.2]

/-- C8 witness: a live standard module is registered; the unmount probe
succeeds and the module is unregistered with the expected trace. -/
theorem destroyed_unregisters_iff_probe_success_witness :
    (destroyed stdModule ⟨some (stdModule, ⟨1, false⟩)⟩ 9).1.registered = none
    ∧ (destroyed stdModule ⟨some (stdModule, ⟨1, false⟩)⟩ 9).2
      = [StoreEvent.commitValidation 9, StoreEvent.unregisterModule] :=
  (destroyed_unregisters_iff_probe_success stdModule
      ⟨some (stdModule, ⟨1, false⟩)⟩ 9 rfl).1 (by decide)

/-- C5 counterexample: the claim says that on probe success during a mount
the registered instance is reused as-is and no unregisterModule or
registerModule call is performed under that name.  At this concrete input
a live standard module is registered, the mount probe succeeds — and the
hook nevertheless performs an unregisterModule followed by a
registerModule, replacing the instance with a fresh one. -/
theorem preFetch_reregisters_cex :
    (checkModule stdModule ⟨some (stdModule, ⟨3, true⟩)⟩ 5).2.1
      = ProbeOutcome.success
    ∧ StoreEvent.unregisterModule
      ∈ (preFetch stdModule ⟨some (stdModule, ⟨3, true⟩)⟩ 5 true).events
    ∧ StoreEvent.registerModule
      ∈ (preFetch stdModule ⟨some (stdModule, ⟨3, true⟩)⟩ 5 true).events := by
  exact ⟨rfl, by decide, by decide⟩

/-- C5 amended: on probe success during a mount the hook does not reuse
the instance; it unregisters the live instance and registers a fresh one
(registerModule runs on every mount, probe success only adds a prior
unregisterModule).  The full trace is commit of the token, unregister,
register, dispatch of the initialization action, and on its resolution the
fetch flag commit; the registry then holds a fresh instance built from the
initial state of the page module. -/
theorem preFetch_replaces_on_probe_success (pm : StoreModuleDef) (st : VStore)
    (comb : Int) (initOk : Bool)
    (h : (checkModule pm st comb).2.1 = ProbeOutcome.success) :
    (preFetch pm st comb initOk).events
      = [StoreEvent.commitValidation comb, StoreEvent.unregisterModule,
          StoreEvent.registerModule, StoreEvent.dispatchInit]
        ++ (if initOk then [StoreEvent.commitFetched true] else [])
    ∧ (preFetch pm st comb initOk).store.registered
      = some (pm, if initOk then (⟨pm.initState.validation, true⟩ : ModState)
          else pm.initState) := by
  have hev := checkModule_success_events pm st comb h
  constructor
  · cases initOk <;> simp [preFetch, h, hev]
  · cases initOk <;> simp [preFetch, registerModule, commitFetched]

/-- C5 amended witness: probing a live module with token 5 succeeds and the
mount replaces it, ending with a fresh instance whose fetch flag was set by
the resolved initialization. -/
theorem preFetch_replaces_on_probe_success_witness :
    (preFetch stdModule ⟨some (stdModule, ⟨3, true⟩)⟩ 17 true).events
      = [StoreEvent.commitValidation 17, StoreEvent.unregisterModule,
          StoreEvent.registerModule, StoreEvent.dispatchInit]
        ++ (if true then [StoreEvent.commitFetched true] else [])
    ∧ (preFetch stdModule ⟨some (stdModule, ⟨3, true⟩)⟩ 17 true).store.registered
      = some (stdModule,
          if true then (⟨stdModule.initState.validation, true⟩ : ModState)
          else stdModule.initState) :=
  preFetch_replaces_on_probe_success stdModule ⟨some (stdModule, ⟨3, true⟩)⟩ 17
    true (by decide)

/-- C6 counterexample: the claim says the asynchronous failure of the
initialization action propagates as a rejected result to the caller of the
page lifecycle hook.  The hook body builds the promise chain but does not
return it, so at this concrete input (a mount whose initialization
rejects) the caller receives undefined, not a rejected promise. -/
theorem preFetch_rejection_not_propagated_cex :
    (preFetch stdModule ⟨none⟩ 7 false).ret = HookRet.undef
    ∧ HookRet.undef ≠ HookRet.promise false := by
  exact ⟨rfl, by decide⟩

/-- C6 amended: the rejection does not reach the caller of the hook — the
promise chain is not returned, so the hook result is undefined — but the
rest of the claim holds: the continuation that commits the fetch flag to
true never runs, and the registered instance keeps its initial fetch flag,
false, so a subsequent mount does not see the module as already
initialized. -/
theorem preFetch_rejection_leaves_flag_false (pm : StoreModuleDef)
    (st : VStore) (comb : Int) (hf : pm.initState.fetched = false) :
    (preFetch pm st comb false).ret = HookRet.undef
    ∧ StoreEvent.commitFetched true ∉ (preFetch pm st comb false).events
    ∧ (preFetch pm st comb false).store.registered = some (pm, pm.initState)
    ∧ (preFetch pm st comb false).store.registered.map (fun p => p.2.fetched)
      = some false := by
  have hev := checkModule_events pm st comb
  refine ⟨rfl, ?_, ?_, ?_⟩
  · rcases hev with hev | hev <;> simp [preFetch, hev]
  · simp [preFetch, registerModule]
  · simp [preFetch, registerModule, hf]

/-- C6 amended witness: a mount over a live module whose initialization
rejects ends with a fresh instance whose fetch flag is false and without a
fetch-flag-true commit in the trace. -/
theorem preFetch_rejection_leaves_flag_false_witness :
    (preFetch stdModule ⟨some (stdModule, ⟨4, true⟩)⟩ 9 false).ret = HookRet.undef
    ∧ StoreEvent.commitFetched true
      ∉ (preFetch stdModule ⟨some (stdModule, ⟨4, true⟩)⟩ 9 false).events
    ∧ (preFetch stdModule ⟨some (stdModule, ⟨4, true⟩)⟩ 9 false).store.registered
      = some (stdModule, stdModule.initState)
    ∧ (preFetch stdModule ⟨some (stdModule, ⟨4, true⟩)⟩ 9
          false).store.registered.map (fun p => p.2.fetched)
      = some false :=
  preFetch_rejection_leaves_flag_false stdModule ⟨some (stdModule, ⟨4, true⟩)⟩ 9
    rfl

/-- C7 counterexample: the claim says overlapping mount and unmount
transitions on one module name settle with exactly one registered
instance, never zero.  Concrete overlap: view A has mounted (its instance
is registered), view B mounts (its preFetch replaces the instance — one
instance registered), then A unmounts.  The unmount probe writes its token
through the live validation mutation of the instance B registered, reads
it back, succeeds, and unregisters it: the registry ends empty although B
is still attached — zero instances, not one. -/
theorem overlapping_unmount_settles_at_zero_cex :
    (preFetch stdModule ⟨some (stdModule, ⟨0, false⟩)⟩ 11 true).store.registered.isSome
      = true
    ∧ (destroyed stdModule
        (preFetch stdModule ⟨some (stdModule, ⟨0, false⟩)⟩ 11 true).store
        12).1.registered = none :=
  ⟨rfl, rfl⟩

/-- C7 amended: after any mount transition exactly one instance is
registered under the name (two simultaneous instances are impossible, the
registry is keyed by the single name), and two mounts in immediate
succession still settle at one; but when an unmount overlaps a completed
mount, the unmount probe succeeds against the surviving instance and
unregisters it, so the transitions settle at zero registered instances,
not one. -/
theorem mount_then_overlapping_unmount (pm : StoreModuleDef) (st : VStore)
    (comb combU : Int) (initOk : Bool)
    (hstd : pm.valMutation = some stdValMutation) :
    (preFetch pm st comb initOk).store.registered.isSome = true
    ∧ (destroyed pm (preFetch pm st comb initOk).store combU).1.registered
      = none := by
  have hS : (preFetch pm st comb initOk).store.registered
      = some (pm, if initOk then (⟨pm.initState.validation, true⟩ : ModState)
          else pm.initState) := by
    cases initOk <;> simp [preFetch, registerModule, commitFetched]
  constructor
  · rw [hS]; rfl
  · have hrun := checkModule_run pm (preFetch pm st comb initOk).store combU pm
      (if initOk then (⟨pm.initState.validation, true⟩ : ModState)
        else pm.initState) stdValMutation (by simp [hstd]) hS hstd
    simp [stdValMutation] at hrun
    simp [destroyed, hrun, unregisterModule]

/-- C7 amended witness: mounting over an empty registry registers one
instance; an overlapping unmount then empties the registry. -/
theorem mount_then_overlapping_unmount_witness :
    (preFetch stdModule ⟨none⟩ 21 false).store.registered.isSome = true
    ∧ (destroyed stdModule (preFetch stdModule ⟨none⟩ 21 false).store
        22).1.registered = none :=
  mount_then_overlapping_unmount stdModule ⟨none⟩ 21 22 false rfl

/-- C10: when the page module definition has no "@@" validation mutation,
checkModule invokes neither callback and leaves the store untouched;
consequently the unmount hook makes no unregisterModule call and leaves
the registry exactly as it was, and the mount hook performs no
stale-instance unregistration — its trace is just the register, the
dispatch of the initialization action and, on resolution, the fetch flag
commit. -/
theorem missing_validation_mutation_inert (pm : StoreModuleDef) (st : VStore)
    (comb : Int) (initOk : Bool) (h : pm.valMutation = none) :
    checkModule pm st comb = (st, ProbeOutcome.noProbe, [])
    ∧ destroyed pm st comb = (st, [])
    ∧ StoreEvent.unregisterModule ∉ (preFetch pm st comb initOk).events
    ∧ (preFetch pm st comb initOk).events
      = [StoreEvent.registerModule, StoreEvent.dispatchInit]
        ++ (if initOk then [StoreEvent.commitFetched true] else []) := by
  have h1 := checkModule_noVal pm st comb h
  refine ⟨h1, ?_, ?_, ?_⟩
  · simp [destroyed, h1]
  · cases initOk <;> simp [preFetch, h1]
  · cases initOk <;> simp [preFetch, h1]

/-- C10 witness: a page module without the validation mutation probes a
registry holding a foreign live module; nothing is invoked, the unmount
leaves the registry unchanged, and the mount trace holds no unregister. -/
theorem missing_validation_mutation_inert_witness :
    checkModule noValModule ⟨some (stdModule, ⟨6, true⟩)⟩ 13
      = (⟨some (stdModule, ⟨6, true⟩)⟩, ProbeOutcome.noProbe, [])
    ∧ destroyed noValModule ⟨some (stdModule, ⟨6, true⟩)⟩ 13
      = (⟨some (stdModule, ⟨6, true⟩)⟩, [])
    ∧ StoreEvent.unregisterModule
      ∉ (preFetch noValModule ⟨some (stdModule, ⟨6, true⟩)⟩ 13 true).events
    ∧ (preFetch noValModule ⟨some (stdModule, ⟨6, true⟩)⟩ 13 true).events
      = [StoreEvent.registerModule, StoreEvent.dispatchInit]
        ++ (if true then [StoreEvent.commitFetched true] else []) :=
  missing_validation_mutation_inert noValModule ⟨some (stdModule, ⟨6, true⟩)⟩ 13
    true rfl

/-! ## Claim about generated action names -/

/-- C9: the generated per-property action for a typed collection item is
named set, then the PascalCase property, then Of, then An exactly when the
first letter of the PascalCase singular is a vowel case-insensitively and
A otherwise, then the PascalCase singular; in particular the singular
apple with property size yields setSizeOfAnApple and the singular job
yields setSizeOfAJob. -/
theorem set_property_action_naming :
    (∀ property single : String,
      setPropertyActionName property single
        = "set" ++ pascalCase property ++ "Of"
          ++ (if startsWithVowel (pascalCase single) then "An" else "A")
          ++ pascalCase single)
    ∧ setPropertyActionName "size" "apple" = "setSizeOfAnApple"
    ∧ setPropertyActionName "size" "job" = "setSizeOfAJob" :=
  ⟨fun _ _ => rfl, by decide, by decide⟩
